import Mathlib

/-!
Verification development for the `polymer-viem` plugin (`src/index.ts`).

The embedding models:
* JavaScript numbers as rationals (every concrete value handled by the plugin
  — chain ids, log indices, intervals — is exactly representable in binary64,
  so rational arithmetic coincides with the source on everything stated here);
* JavaScript bigints as integers;
* the remote proving service as explicit response values handed to each
  operation (one response per network round trip), so that the functions stay
  pure while performing exactly the branching the source performs on
  `fetch` results;
* `console` logging as a list of structured entries returned alongside each
  result, gated on the `debug` flag exactly as `createLogger` gates it;
* thrown `Error`s as `Except` errors, one constructor per distinct
  `throw new Error(...)` site of the source.
-/

namespace PolymerViem

/-- Job states of `ProofJobStatus.status` (`src/types/index.ts`):
`"pending" | "generating" | "complete" | "error"`. -/
inductive JobState where
  | pending
  | generating
  | complete
  | error
deriving DecidableEq

/-- Terminal states of a proof job: `complete` and `error`. -/
def JobState.isTerminal : JobState → Bool
  | .complete => true
  | .error => true
  | .pending => false
  | .generating => false

/-- `ProofJobStatus` (`src/types/index.ts`): status tag, optional proof,
optional failure reason, plus untyped passthrough fields (the interface's
string index signature), modelled as a string-keyed association list. -/
structure ProofJobStatus where
  status : JobState
  proof : Option String := none
  failureReason : Option String := none
  extra : List (String × String) := []
deriving DecidableEq

/-- One receipt log as used by the plugin: only `topics` is read. -/
structure Log where
  topics : List String
deriving DecidableEq

/-- The fields of a viem `TransactionReceipt` the plugin reads.
viem delivers `blockNumber` as a bigint. -/
structure TransactionReceipt where
  blockNumber : ℤ
  transactionIndex : ℚ
  transactionHash : String
  logs : List Log
deriving DecidableEq

/-- Fully-populated plugin configuration (`Required<PolymerConfig>`). -/
structure PolymerConfig where
  apiUrl : String
  apiKey : String
  maxAttempts : Nat
  interval : Nat
  timeout : Nat
  debug : Bool
deriving DecidableEq

/-- `DEFAULT_CONFIG` (src/index.ts lines 50–57). -/
def DEFAULT_CONFIG : PolymerConfig :=
  ⟨"https://proof.testnet.polymer.zone", "", 20, 3000, 60000, false⟩

/-- User-supplied `PolymerConfig`: every field except `apiKey` is optional. -/
structure PolymerUserConfig where
  apiUrl : Option String := none
  apiKey : String
  maxAttempts : Option Nat := none
  interval : Option Nat := none
  timeout : Option Nat := none
  debug : Option Bool := none

/-- The spread merge `{ ...DEFAULT_CONFIG, ...config }` (src/index.ts line 66):
fields absent from the user config fall back to `DEFAULT_CONFIG`. -/
def mergeConfig (config : PolymerUserConfig) : PolymerConfig :=
  ⟨config.apiUrl.getD DEFAULT_CONFIG.apiUrl,
   config.apiKey,
   config.maxAttempts.getD DEFAULT_CONFIG.maxAttempts,
   config.interval.getD DEFAULT_CONFIG.interval,
   config.timeout.getD DEFAULT_CONFIG.timeout,
   config.debug.getD DEFAULT_CONFIG.debug⟩

/-- One constructor per distinct `throw new Error(...)` site of src/index.ts. -/
inductive PluginError where
  | apiKeyRequired
  | receiptRequired
  | chainIdNotFound
  | selectorRequired
  | negativeLogIndex
  | eventNotFound (eventSignature : String)
  | httpError (status : Nat)
  | apiError (payload : String)
  | generationFailed (reason : String)
  | timedOut (maxAttempts : Nat)
  | jobIdRequired
deriving DecidableEq

/-- Structured rendering of each `logger.log` / `logger.error` call site. -/
inductive LogEntry where
  | initializing
  | receiptDetails (srcChainId : ℚ) (srcBlockNumber : ℤ) (txIndex : ℚ)
      (localLogIndex : ℚ) (transactionHash : String)
  | jobCreated (jobId : String)
  | requestingProof (params : List (ℚ ⊕ ℤ))
  | requestError
  | queryingStatus (jobId : String)
  | queryError
  | pollingStart (maxAttempts interval : Nat)
  | pollingAttempt (attempt maxAttempts : Nat)
  | generationComplete
  | waitingBeforeNext (interval : Nat)
deriving DecidableEq

/-- `createLogger` (src/index.ts lines 367–380): an entry reaches the console
iff `enabled`; the model returns the list of entries printed. -/
def createLogger (enabled : Bool) : LogEntry → List LogEntry :=
  fun entry => if enabled then [entry] else []

/-- A JS value that is `number | bigint`. -/
inductive JSNumeric where
  | number (q : ℚ)
  | bigint (n : ℤ)
deriving DecidableEq

/-- A numeric value placed in the JSON-RPC params array. `num q` is an
exactly-represented binary64 number; `inexact n` marks the result of
`Number(b)` on a bigint outside the 2^53 safe-integer range, whose binary64
rounding this development does not model (the loss-of-precision caveat of
the source). -/
inductive WireNumber where
  | num (q : ℚ)
  | inexact (n : ℤ)
deriving DecidableEq

/-- JS `Number(b)` on a bigint `b`: exact whenever `|b| ≤ 2^53`. -/
def numberOfBigint (n : ℤ) : WireNumber :=
  if n.natAbs ≤ 2 ^ 53 then .num (n : ℚ) else .inexact n

/-- `typeof srcBlockNumber === 'bigint' ? Number(srcBlockNumber) : srcBlockNumber`
(src/index.ts line 226). -/
def coerceBlockNumber : JSNumeric → WireNumber
  | .bigint n => numberOfBigint n
  | .number q => .num q

/-- A `fetch` outcome as the source observes it: `response.ok`,
`response.status`, and the parsed JSON body's `error` / `result` fields.
`error = some e` models a present, truthy JSON-RPC error payload
(serialized); `none` models an absent or falsy one. -/
structure FetchResponse (α : Type) where
  ok : Bool
  status : Nat
  error : Option String
  result : α

/-- A successful JSON-RPC envelope carrying `result`. -/
def okResponse (s : ProofJobStatus) : FetchResponse ProofJobStatus :=
  ⟨true, 200, none, s⟩

/-- The JSON-RPC request body the plugin transmits: method and params. -/
structure RpcRequest where
  method : String
  params : List WireNumber
deriving DecidableEq

/-- Result of one `requestProof` call: outcome, the transmitted request,
and the debug log. -/
structure RequestCall where
  result : Except PluginError String
  request : RpcRequest
  logs : List LogEntry

/-- `requestProof` (src/index.ts lines 216–265): builds the
`log_requestProof` params array (coercing a bigint block number with
`Number`), performs one round trip, fails on a non-ok HTTP status or a
service error envelope, and otherwise returns `data.result` verbatim. -/
def requestProof (cfg : PolymerConfig) (srcChainId : ℚ) (srcBlockNumber : JSNumeric)
    (txIndex localLogIndex : ℚ) (resp : FetchResponse String) : RequestCall :=
  let params := [WireNumber.num srcChainId, coerceBlockNumber srcBlockNumber,
    WireNumber.num txIndex, WireNumber.num localLogIndex]
  let request : RpcRequest := ⟨"log_requestProof", params⟩
  let logger := createLogger cfg.debug
  let logs := logger (.requestingProof (params.map wireSummary))
  if resp.ok = false then
    ⟨.error (.httpError resp.status), request, logs ++ logger .requestError⟩
  else
    match resp.error with
    | some e => ⟨.error (.apiError e), request, logs ++ logger .requestError⟩
    | none => ⟨.ok resp.result, request, logs⟩
where
  /-- Rendering of a wire number inside a log entry. -/
  wireSummary : WireNumber → ℚ ⊕ ℤ
    | .num q => .inl q
    | .inexact n => .inr n

/-- Result of one `queryProofStatus` call: outcome and the debug log. -/
structure QueryOutcome where
  result : Except PluginError ProofJobStatus
  logs : List LogEntry

/-- `queryProofStatus` (src/index.ts lines 274–309): one `log_queryProof`
round trip; fails on a non-ok HTTP status or a service error envelope,
otherwise returns `data.result` as the job status. -/
def queryProofStatus (cfg : PolymerConfig) (jobId : String)
    (resp : FetchResponse ProofJobStatus) : QueryOutcome :=
  let logger := createLogger cfg.debug
  let logs := logger (.queryingStatus jobId)
  if resp.ok = false then
    ⟨.error (.httpError resp.status), logs ++ logger .queryError⟩
  else
    match resp.error with
    | some e => ⟨.error (.apiError e), logs ++ logger .queryError⟩
    | none => ⟨.ok resp.result, logs⟩

/-- JS `value || fallback` on an optional string: `undefined`, `null` and
the empty string are all falsy, so any of them selects the fallback. -/
def jsOrStr (value : Option String) (fallback : String) : String :=
  match value with
  | none => fallback
  | some v => if v = "" then fallback else v

/-- Observable trace of one `wait` call: terminal outcome, number of
`queryProofStatus` round trips, number of inter-attempt delays, debug log. -/
structure WaitTrace where
  result : Except PluginError ProofJobStatus
  queries : Nat
  delays : Nat
  logs : List LogEntry

/-- The body of the `for (let attempt = 1; attempt <= maxAttempts; ...)` loop
of `wait` (src/index.ts lines 331–353), entered at `attempt`. Each iteration
queries once (`responses (attempt - 1)` is that round trip's response),
returns a `complete` status, throws on an `error` status (with a falsy —
missing or empty — `failureReason` replaced by "Unknown error", mirroring
`result.failureReason || "Unknown error"`), and otherwise sleeps for
`interval` ms — counted in `delays` — only when `attempt < maxAttempts`.
Falling out of the loop throws the timeout error (line 353). -/
def waitGo (cfg : PolymerConfig) (jobId : String)
    (responses : Nat → FetchResponse ProofJobStatus)
    (maxAttempts interval attempt : Nat) : WaitTrace :=
  if _h : maxAttempts < attempt then
    ⟨.error (.timedOut maxAttempts), 0, 0, []⟩
  else
    let logger := createLogger cfg.debug
    let q := queryProofStatus cfg jobId (responses (attempt - 1))
    let logs := logger (.pollingAttempt attempt maxAttempts) ++ q.logs
    match q.result with
    | .error e => ⟨.error e, 1, 0, logs⟩
    | .ok result =>
      if result.status = JobState.complete then
        ⟨.ok result, 1, 0, logs ++ logger .generationComplete⟩
      else if result.status = JobState.error then
        ⟨.error (.generationFailed (jsOrStr result.failureReason "Unknown error")),
          1, 0, logs⟩
      else
        let rest := waitGo cfg jobId responses maxAttempts interval (attempt + 1)
        if attempt < maxAttempts then
          ⟨rest.result, rest.queries + 1, rest.delays + 1,
            logs ++ logger (.waitingBeforeNext interval) ++ rest.logs⟩
        else
          ⟨rest.result, rest.queries + 1, rest.delays, logs ++ rest.logs⟩
termination_by maxAttempts + 1 - attempt
decreasing_by omega

/-- `wait` (src/index.ts lines 320–354): the poll loop starting at attempt 1. -/
def wait (cfg : PolymerConfig) (jobId : String)
    (responses : Nat → FetchResponse ProofJobStatus)
    (maxAttempts interval : Nat) : WaitTrace :=
  let logger := createLogger cfg.debug
  let t := waitGo cfg jobId responses maxAttempts interval 1
  ⟨t.result, t.queries, t.delays, logger (.pollingStart maxAttempts interval) ++ t.logs⟩

/-- JS `value || fallback` on an optional numeric argument: `undefined` and
`0` are both falsy, so either selects the fallback. -/
def jsOrNat (value : Option Nat) (fallback : Nat) : Nat :=
  match value with
  | none => fallback
  | some v => if v = 0 then fallback else v

/-- `polymer.wait` (src/index.ts lines 189–200): rejects an empty job id
before any round trip, then delegates to `wait` with
`maxAttempts || polymerConfig.maxAttempts` and
`interval || polymerConfig.interval`. -/
def polymerWait (cfg : PolymerConfig) (jobId : String)
    (responses : Nat → FetchResponse ProofJobStatus)
    (maxAttempts interval : Option Nat) : WaitTrace :=
  if jobId = "" then ⟨.error .jobIdRequired, 0, 0, []⟩
  else wait cfg jobId responses (jsOrNat maxAttempts cfg.maxAttempts)
    (jsOrNat interval cfg.interval)

/-- Result of one public `polymer.queryProofStatus` call: outcome, number of
network round trips performed, debug log. -/
structure StatusCall where
  result : Except PluginError ProofJobStatus
  roundTrips : Nat
  logs : List LogEntry

/-- `polymer.queryProofStatus` (src/index.ts lines 178–184): rejects an empty
job id before any round trip, then performs exactly one query. -/
def polymerQueryProofStatus (cfg : PolymerConfig) (jobId : String)
    (resp : FetchResponse ProofJobStatus) : StatusCall :=
  if jobId = "" then ⟨.error .jobIdRequired, 0, []⟩
  else
    let q := queryProofStatus cfg jobId resp
    ⟨q.result, 1, q.logs⟩

/-- JS truthiness of an optional string: `undefined` and `""` are falsy. -/
def jsTruthyStr : Option String → Bool
  | none => false
  | some s => decide (s ≠ "")

/-- JS truthiness of `providedLogIndex !== undefined && providedLogIndex < 0`. -/
def negativeProvided : Option ℚ → Bool
  | none => false
  | some v => decide (v < 0)

/-- JS `Array.prototype.findIndex`: index of the first element satisfying
`p`, or `-1` when none does. -/
def jsFindIndex {α : Type} (p : α → Bool) (xs : List α) : ℤ :=
  match xs.findIdx? p with
  | some i => (i : ℤ)
  | none => -1

/-- The predicate of the `findIndex` scan (src/index.ts line 120):
`log.topics[0] === eventTopic` (false when `topics` is empty). -/
def topicMatches (eventTopic : String) (log : Log) : Bool :=
  decide (log.topics.head? = some eventTopic)

/-- The log-index resolution section of `polymerProof`
(src/index.ts lines 104–130). `keccak` stands for
`viemKeccak256 ∘ toBytes` (UTF-8 keccak-256 of the signature text).
The guards mirror the source in order:
`!eventSignature && typeof providedLogIndex !== "number"`, then
`providedLogIndex !== undefined && providedLogIndex < 0`, then the scan
branch `typeof providedLogIndex !== "number" && eventSignature`. The final
`none, none` case is unreachable (the first guard already fired). -/
def resolveLogIndex (keccak : String → String) (receipt : TransactionReceipt)
    (eventSignature : Option String) (providedLogIndex : Option ℚ) :
    Except PluginError ℚ :=
  if jsTruthyStr eventSignature = false ∧ providedLogIndex = none then
    .error .selectorRequired
  else if negativeProvided providedLogIndex then
    .error .negativeLogIndex
  else
    match providedLogIndex, eventSignature with
    | some v, _ => .ok v
    | none, some sig =>
      let eventTopic := keccak sig
      let foundIndex := jsFindIndex (topicMatches eventTopic) receipt.logs
      if foundIndex = -1 then .error (.eventNotFound sig)
      else .ok (foundIndex : ℚ)
    | none, none => .error .selectorRequired

/-- `PolymerProofOptions` (src/types/index.ts). The receipt is optional here
because the source guards `if (!receipt)`. -/
structure PolymerProofOptions where
  receipt : Option TransactionReceipt
  eventSignature : Option String := none
  logIndex : Option ℚ := none
  maxAttempts : Option Nat := none
  interval : Option Nat := none
  returnJob : Bool := false

/-- What `polymerProof` resolves to: a terminal job status, or — in
`returnJob` mode — the job id together with the original receipt. -/
inductive PolymerProofResult where
  | status (s : ProofJobStatus)
  | job (jobId : String) (receipt : TransactionReceipt)

/-- Result of one `polymerProof` call: outcome and debug log. -/
structure ProofCall where
  result : Except PluginError PolymerProofResult
  logs : List LogEntry

/-- `polymerProof` (src/index.ts lines 77–157): requires a receipt and a
truthy `client.chain?.id`, resolves per-call `maxAttempts`/`interval` by
destructuring defaults (only `undefined` falls back to the config), resolves
the log index, submits the proof request (`requestResponse` is that round
trip's response), and either returns `{jobId, receipt}` or polls
(`pollResponses` are the poll round trips' responses). -/
def polymerProof (cfg : PolymerConfig) (keccak : String → String)
    (chainId : Option ℚ) (options : PolymerProofOptions)
    (requestResponse : FetchResponse String)
    (pollResponses : Nat → FetchResponse ProofJobStatus) : ProofCall :=
  match options.receipt with
  | none => ⟨.error .receiptRequired, []⟩
  | some receipt =>
    match chainId with
    | none => ⟨.error .chainIdNotFound, []⟩
    | some cid =>
      if cid = 0 then ⟨.error .chainIdNotFound, []⟩
      else
        let srcChainId := cid
        let srcBlockNumber := receipt.blockNumber
        let txIndex := receipt.transactionIndex
        let maxAttempts := options.maxAttempts.getD cfg.maxAttempts
        let interval := options.interval.getD cfg.interval
        let logger := createLogger cfg.debug
        match resolveLogIndex keccak receipt options.eventSignature options.logIndex with
        | .error e => ⟨.error e, []⟩
        | .ok localLogIndex =>
          let logs1 := logger (.receiptDetails srcChainId srcBlockNumber txIndex
            localLogIndex receipt.transactionHash)
          let req := requestProof cfg srcChainId (.bigint srcBlockNumber) txIndex
            localLogIndex requestResponse
          match req.result with
          | .error e => ⟨.error e, logs1 ++ req.logs⟩
          | .ok jobId =>
            let logs2 := logs1 ++ req.logs ++ logger (.jobCreated jobId)
            if options.returnJob then ⟨.ok (.job jobId receipt), logs2⟩
            else
              let t := wait cfg jobId pollResponses maxAttempts interval
              ⟨t.result.map .status, logs2 ++ t.logs⟩

/-- `ProofRequestParams` (src/types/index.ts). -/
structure ProofRequestParams where
  srcChainId : ℚ
  srcBlockNumber : JSNumeric
  txIndex : ℚ
  logIndex : ℚ

/-- `polymer.requestProof` (src/index.ts lines 164–173): passes the params
through to `requestProof` unchanged. -/
def polymerRequestProof (cfg : PolymerConfig) (params : ProofRequestParams)
    (resp : FetchResponse String) : RequestCall :=
  requestProof cfg params.srcChainId params.srcBlockNumber params.txIndex
    params.logIndex resp

/-- The `polymer(config)` initializer (src/index.ts lines 64–73): merges the
user config over the defaults and insists on a non-empty API key. -/
def polymerInit (config : PolymerUserConfig) : Except PluginError PolymerConfig :=
  let polymerConfig := mergeConfig config
  if polymerConfig.apiKey = "" then .error .apiKeyRequired
  else .ok polymerConfig

/-! ### Poll-loop lemmas -/

/-- A successful JSON-RPC envelope yields its status verbatim. -/
theorem queryProofStatus_okResponse (cfg : PolymerConfig) (jobId : String)
    (s : ProofJobStatus) :
    (queryProofStatus cfg jobId (okResponse s)).result = .ok s := rfl

/-- Entering the loop past `maxAttempts` throws the timeout error at once. -/
theorem waitGo_past_max (cfg : PolymerConfig) (jobId : String)
    (responses : Nat → FetchResponse ProofJobStatus)
    (maxAttempts interval attempt : Nat) (h : maxAttempts < attempt) :
    waitGo cfg jobId responses maxAttempts interval attempt =
      ⟨.error (.timedOut maxAttempts), 0, 0, []⟩ := by
  unfold waitGo
  simp [h]

/-- A failed status query propagates out of the loop after one round trip. -/
theorem waitGo_step_queryError (cfg : PolymerConfig) (jobId : String)
    (responses : Nat → FetchResponse ProofJobStatus)
    (maxAttempts interval attempt : Nat) (e : PluginError)
    (h1 : attempt ≤ maxAttempts)
    (hq : (queryProofStatus cfg jobId (responses (attempt - 1))).result = .error e) :
    (waitGo cfg jobId responses maxAttempts interval attempt).result = .error e ∧
    (waitGo cfg jobId responses maxAttempts interval attempt).queries = 1 ∧
    (waitGo cfg jobId responses maxAttempts interval attempt).delays = 0 := by
  refine ⟨?_, ?_, ?_⟩ <;> (conv_lhs => rw [waitGo]) <;>
    simp [Nat.not_lt.mpr h1, hq]

/-- A `complete` status is returned after one round trip and no delay. -/
theorem waitGo_step_complete (cfg : PolymerConfig) (jobId : String)
    (responses : Nat → FetchResponse ProofJobStatus)
    (maxAttempts interval attempt : Nat) (s : ProofJobStatus)
    (h1 : attempt ≤ maxAttempts)
    (hq : (queryProofStatus cfg jobId (responses (attempt - 1))).result = .ok s)
    (hs : s.status = JobState.complete) :
    (waitGo cfg jobId responses maxAttempts interval attempt).result = .ok s ∧
    (waitGo cfg jobId responses maxAttempts interval attempt).queries = 1 ∧
    (waitGo cfg jobId responses maxAttempts interval attempt).delays = 0 := by
  refine ⟨?_, ?_, ?_⟩ <;> (conv_lhs => rw [waitGo]) <;>
    simp [Nat.not_lt.mpr h1, hq, hs]

/-- An `error` status throws `ProofGenerationFailed` after one round trip. -/
theorem waitGo_step_jobError (cfg : PolymerConfig) (jobId : String)
    (responses : Nat → FetchResponse ProofJobStatus)
    (maxAttempts interval attempt : Nat) (s : ProofJobStatus)
    (h1 : attempt ≤ maxAttempts)
    (hq : (queryProofStatus cfg jobId (responses (attempt - 1))).result = .ok s)
    (hs : s.status = JobState.error) :
    (waitGo cfg jobId responses maxAttempts interval attempt).result =
      .error (.generationFailed (jsOrStr s.failureReason "Unknown error")) ∧
    (waitGo cfg jobId responses maxAttempts interval attempt).queries = 1 ∧
    (waitGo cfg jobId responses maxAttempts interval attempt).delays = 0 := by
  refine ⟨?_, ?_, ?_⟩ <;> (conv_lhs => rw [waitGo]) <;>
    simp [Nat.not_lt.mpr h1, hq, hs]

/-- A non-terminal status continues at the next attempt, adding one round
trip and — strictly before the last attempt — one delay. -/
theorem waitGo_step_continue (cfg : PolymerConfig) (jobId : String)
    (responses : Nat → FetchResponse ProofJobStatus)
    (maxAttempts interval attempt : Nat) (s : ProofJobStatus)
    (h1 : attempt ≤ maxAttempts)
    (hq : (queryProofStatus cfg jobId (responses (attempt - 1))).result = .ok s)
    (hs : (s.status).isTerminal = false) :
    (waitGo cfg jobId responses maxAttempts interval attempt).result =
      (waitGo cfg jobId responses maxAttempts interval (attempt + 1)).result ∧
    (waitGo cfg jobId responses maxAttempts interval attempt).queries =
      (waitGo cfg jobId responses maxAttempts interval (attempt + 1)).queries + 1 ∧
    (waitGo cfg jobId responses maxAttempts interval attempt).delays =
      (waitGo cfg jobId responses maxAttempts interval (attempt + 1)).delays +
        (if attempt < maxAttempts then 1 else 0) := by
  have hc : s.status ≠ JobState.complete := by
    intro hcc; rw [hcc] at hs; simp [JobState.isTerminal] at hs
  have he : s.status ≠ JobState.error := by
    intro hcc; rw [hcc] at hs; simp [JobState.isTerminal] at hs
  by_cases h2 : attempt < maxAttempts <;>
    (refine ⟨?_, ?_, ?_⟩ <;> (conv_lhs => rw [waitGo]) <;>
      simp [Nat.not_lt.mpr h1, hq, hc, he, h2])

/-- How the loop body handles the first terminal status it sees. -/
def terminalOutcome (s : ProofJobStatus) : Except PluginError ProofJobStatus :=
  if s.status = JobState.complete then .ok s
  else .error (.generationFailed (jsOrStr s.failureReason "Unknown error"))

/-- If statuses before relative position `k` are non-terminal and the one at
`k` is terminal, the loop entered at `attempt = a` consumes exactly `k + 1`
queries and `k` delays and resolves to the terminal outcome. -/
theorem waitGo_reach (cfg : PolymerConfig) (jobId : String)
    (statuses : Nat → ProofJobStatus) (maxAttempts interval : Nat) :
    ∀ k a, 1 ≤ a → a + k ≤ maxAttempts →
      (∀ d < k, ((statuses (a - 1 + d)).status).isTerminal = false) →
      ((statuses (a - 1 + k)).status).isTerminal = true →
      (waitGo cfg jobId (fun j => okResponse (statuses j)) maxAttempts interval a).result =
        terminalOutcome (statuses (a - 1 + k)) ∧
      (waitGo cfg jobId (fun j => okResponse (statuses j)) maxAttempts interval a).queries =
        k + 1 ∧
      (waitGo cfg jobId (fun j => okResponse (statuses j)) maxAttempts interval a).delays =
        k := by
  intro k
  induction k with
  | zero =>
    intro a ha hle _hb hterm
    have h1 : a ≤ maxAttempts := by omega
    have hq := queryProofStatus_okResponse cfg jobId (statuses (a - 1))
    simp only [Nat.add_zero] at hterm ⊢
    rcases hst : (statuses (a - 1)).status with h | h | h | h
    · rw [hst] at hterm; simp [JobState.isTerminal] at hterm
    · rw [hst] at hterm; simp [JobState.isTerminal] at hterm
    · have := waitGo_step_complete cfg jobId (fun j => okResponse (statuses j))
        maxAttempts interval a (statuses (a - 1)) h1 hq hst
      simpa [terminalOutcome, hst] using this
    · have := waitGo_step_jobError cfg jobId (fun j => okResponse (statuses j))
        maxAttempts interval a (statuses (a - 1)) h1 hq hst
      have hne : (statuses (a - 1)).status ≠ JobState.complete := by
        rw [hst]; intro hcc; exact JobState.noConfusion hcc
      simpa [terminalOutcome, hne] using this
  | succ k ih =>
    intro a ha hle hb hterm
    have h1 : a ≤ maxAttempts := by omega
    have hq := queryProofStatus_okResponse cfg jobId (statuses (a - 1))
    have hnt : ((statuses (a - 1)).status).isTerminal = false := by
      have := hb 0 (Nat.succ_pos k)
      simpa using this
    have hstep := waitGo_step_continue cfg jobId (fun j => okResponse (statuses j))
      maxAttempts interval a (statuses (a - 1)) h1 hq hnt
    have hshift : a - 1 + (k + 1) = (a + 1) - 1 + k := by omega
    have hnext := ih (a + 1) (by omega) (by omega)
      (fun d hd => by
        have := hb (d + 1) (by omega)
        have hsd : a - 1 + (d + 1) = (a + 1) - 1 + d := by omega
        rwa [hsd] at this)
      (by rwa [hshift] at hterm)
    have hlt : a < maxAttempts := by omega
    rw [hshift]
    refine ⟨?_, ?_, ?_⟩
    · rw [hstep.1, hnext.1]
    · rw [hstep.2.1, hnext.2.1]
    · rw [hstep.2.2, hnext.2.2, if_pos hlt]

/-- If every status up to the last attempt is non-terminal, the loop entered
at `a ≤ maxAttempts` exhausts its attempts: `maxAttempts - a + 1` queries,
`maxAttempts - a` delays, and the timeout error. -/
theorem waitGo_exhaust (cfg : PolymerConfig) (jobId : String)
    (statuses : Nat → ProofJobStatus) (maxAttempts interval : Nat) :
    ∀ r a, 1 ≤ a → maxAttempts - a = r → a ≤ maxAttempts →
      (∀ d ≤ maxAttempts - a, ((statuses (a - 1 + d)).status).isTerminal = false) →
      (waitGo cfg jobId (fun j => okResponse (statuses j)) maxAttempts interval a).result =
        .error (.timedOut maxAttempts) ∧
      (waitGo cfg jobId (fun j => okResponse (statuses j)) maxAttempts interval a).queries =
        maxAttempts - a + 1 ∧
      (waitGo cfg jobId (fun j => okResponse (statuses j)) maxAttempts interval a).delays =
        maxAttempts - a := by
  intro r
  induction r with
  | zero =>
    intro a ha hr hle hb
    have h1 : a ≤ maxAttempts := hle
    have hq := queryProofStatus_okResponse cfg jobId (statuses (a - 1))
    have hnt : ((statuses (a - 1)).status).isTerminal = false := by
      have := hb 0 (Nat.zero_le _)
      simpa using this
    have hstep := waitGo_step_continue cfg jobId (fun j => okResponse (statuses j))
      maxAttempts interval a (statuses (a - 1)) h1 hq hnt
    have hpast := waitGo_past_max cfg jobId (fun j => okResponse (statuses j))
      maxAttempts interval (a + 1) (by omega)
    have hnlt : ¬ a < maxAttempts := by omega
    rw [hr]
    refine ⟨?_, ?_, ?_⟩
    · rw [hstep.1, hpast]
    · rw [hstep.2.1, hpast]
    · rw [hstep.2.2, hpast, if_neg hnlt]
  | succ r ih =>
    intro a ha hr hle hb
    have h1 : a ≤ maxAttempts := hle
    have hq := queryProofStatus_okResponse cfg jobId (statuses (a - 1))
    have hnt : ((statuses (a - 1)).status).isTerminal = false := by
      have := hb 0 (Nat.zero_le _)
      simpa using this
    have hstep := waitGo_step_continue cfg jobId (fun j => okResponse (statuses j))
      maxAttempts interval a (statuses (a - 1)) h1 hq hnt
    have hnext := ih (a + 1) (by omega) (by omega) (by omega)
      (fun d hd => by
        have := hb (d + 1) (by omega)
        have hsd : a - 1 + (d + 1) = (a + 1) - 1 + d := by omega
        rwa [hsd] at this)
    have hlt : a < maxAttempts := by omega
    refine ⟨?_, ?_, ?_⟩
    · rw [hstep.1, hnext.1]
    · rw [hstep.2.1, hnext.2.1]; omega
    · rw [hstep.2.2, hnext.2.2, if_pos hlt]; omega

/-! ### Concrete data for witnesses -/

/-- A `pending` status as the service reports it. -/
def pendingStatus : ProofJobStatus := ⟨.pending, none, none, []⟩

/-- A `complete` status carrying a proof. -/
def completeStatus : ProofJobStatus := ⟨.complete, some "0xproofdata", none, []⟩

/-- An `error` status carrying a failure reason. -/
def failedStatus : ProofJobStatus := ⟨.error, none, some "prover overloaded", []⟩

/-- The status sequence `[pending, pending, complete, ...]`. -/
def seqPendingPendingComplete : Nat → ProofJobStatus :=
  fun k => if k < 2 then pendingStatus else completeStatus

/-- The all-`pending` status sequence. -/
def seqAllPending : Nat → ProofJobStatus := fun _ => pendingStatus

/-- The status sequence `[pending, error, ...]`. -/
def seqPendingError : Nat → ProofJobStatus :=
  fun k => if k = 0 then pendingStatus else failedStatus

/-- An `error` status whose `failureReason` is present but empty. -/
def failedEmptyReasonStatus : ProofJobStatus := ⟨.error, none, some "", []⟩

/-- The status sequence `[pending, error-with-empty-reason, ...]`. -/
def seqPendingEmptyReason : Nat → ProofJobStatus :=
  fun k => if k = 0 then pendingStatus else failedEmptyReasonStatus

/-! ### C1–C3: poll-loop behaviour -/

/-- **C1.** For every jobId and every status sequence whose first terminal
element is `complete` (at position `i`, inside the attempt budget), the poll
loop `wait` returns that complete status after exactly `i + 1` status
queries — one per status up to and including the terminal one — and exactly
`i` inter-attempt delays, i.e. one delay between consecutive queries and
none before the first query or after the terminal result. -/
theorem wait_first_complete (cfg : PolymerConfig) (jobId : String)
    (statuses : Nat → ProofJobStatus) (maxAttempts interval i : Nat)
    (hi : i < maxAttempts)
    (hbefore : ∀ j < i, ((statuses j).status).isTerminal = false)
    (hc : (statuses i).status = JobState.complete) :
    (wait cfg jobId (fun k => okResponse (statuses k)) maxAttempts interval).result =
      .ok (statuses i) ∧
    (wait cfg jobId (fun k => okResponse (statuses k)) maxAttempts interval).queries =
      i + 1 ∧
    (wait cfg jobId (fun k => okResponse (statuses k)) maxAttempts interval).delays =
      i := by
  have hz : ∀ d : Nat, 1 - 1 + d = d := fun d => by omega
  have h := waitGo_reach cfg jobId statuses maxAttempts interval i 1 le_rfl (by omega)
    (fun d hd => by rw [hz]; exact hbefore d hd)
    (by rw [hz, hc]; rfl)
  rw [hz] at h
  simpa [wait, terminalOutcome, hc] using h

/-- Witness for C1: the sequence `[pending, pending, complete]` with
`maxAttempts = 5` yields the complete status after exactly 3 queries
and 2 delays. -/
theorem wait_first_complete_witness :
    (wait DEFAULT_CONFIG "job-1" (fun k => okResponse (seqPendingPendingComplete k))
      5 3000).result = .ok (seqPendingPendingComplete 2) ∧
    (wait DEFAULT_CONFIG "job-1" (fun k => okResponse (seqPendingPendingComplete k))
      5 3000).queries = 2 + 1 ∧
    (wait DEFAULT_CONFIG "job-1" (fun k => okResponse (seqPendingPendingComplete k))
      5 3000).delays = 2 :=
  wait_first_complete DEFAULT_CONFIG "job-1" seqPendingPendingComplete 5 3000 2
    (by decide) (by decide) (by decide)

/-- **C2.** For every jobId, every `maxAttempts ≥ 1` and every status
sequence that yields only non-terminal statuses, the poll loop `wait`
raises the timeout error after exactly `maxAttempts` status queries, with
no delay after the final query (`maxAttempts - 1` delays in total). -/
theorem wait_times_out (cfg : PolymerConfig) (jobId : String)
    (statuses : Nat → ProofJobStatus) (maxAttempts interval : Nat)
    (hpos : 1 ≤ maxAttempts)
    (hall : ∀ j < maxAttempts, ((statuses j).status).isTerminal = false) :
    (wait cfg jobId (fun k => okResponse (statuses k)) maxAttempts interval).result =
      .error (.timedOut maxAttempts) ∧
    (wait cfg jobId (fun k => okResponse (statuses k)) maxAttempts interval).queries =
      maxAttempts ∧
    (wait cfg jobId (fun k => okResponse (statuses k)) maxAttempts interval).delays =
      maxAttempts - 1 := by
  have hz : ∀ d : Nat, 1 - 1 + d = d := fun d => by omega
  have h := waitGo_exhaust cfg jobId statuses maxAttempts interval (maxAttempts - 1) 1
    le_rfl rfl hpos
    (fun d hd => by rw [hz]; exact hall d (by omega))
  have hq : maxAttempts - 1 + 1 = maxAttempts := by omega
  rw [hq] at h
  simpa [wait] using h

/-- Witness for C2: the all-`pending` sequence with `maxAttempts = 3`
times out after exactly 3 queries and 2 delays. -/
theorem wait_times_out_witness :
    (wait DEFAULT_CONFIG "job-2" (fun k => okResponse (seqAllPending k))
      3 3000).result = .error (.timedOut 3) ∧
    (wait DEFAULT_CONFIG "job-2" (fun k => okResponse (seqAllPending k))
      3 3000).queries = 3 ∧
    (wait DEFAULT_CONFIG "job-2" (fun k => okResponse (seqAllPending k))
      3 3000).delays = 3 - 1 :=
  wait_times_out DEFAULT_CONFIG "job-2" seqAllPending 3 3000 (by decide) (by decide)

/-- **C3 (amended).** For every jobId and every status sequence whose first
terminal element is an `error` status (at position `i`, inside the attempt
budget) carrying a non-empty `failureReason = some r`, the poll loop `wait`
raises `ProofGenerationFailed` carrying `r` after exactly `i + 1` status
queries. (The non-emptiness proviso is forced: the source computes
`result.failureReason || "Unknown error"`, under which a missing or empty —
JS-falsy — failure reason is replaced by "Unknown error".) -/
theorem wait_error_raises (cfg : PolymerConfig) (jobId : String)
    (statuses : Nat → ProofJobStatus) (maxAttempts interval i : Nat) (r : String)
    (hi : i < maxAttempts)
    (hbefore : ∀ j < i, ((statuses j).status).isTerminal = false)
    (he : (statuses i).status = JobState.error)
    (hr : (statuses i).failureReason = some r)
    (hrne : r ≠ "") :
    (wait cfg jobId (fun k => okResponse (statuses k)) maxAttempts interval).result =
      .error (.generationFailed r) ∧
    (wait cfg jobId (fun k => okResponse (statuses k)) maxAttempts interval).queries =
      i + 1 := by
  have hz : ∀ d : Nat, 1 - 1 + d = d := fun d => by omega
  have h := waitGo_reach cfg jobId statuses maxAttempts interval i 1 le_rfl (by omega)
    (fun d hd => by rw [hz]; exact hbefore d hd)
    (by rw [hz, he]; rfl)
  rw [hz] at h
  have hne : (statuses i).status ≠ JobState.complete := by
    rw [he]; intro hcc; exact JobState.noConfusion hcc
  refine ⟨?_, ?_⟩
  · have := h.1
    simpa [wait, terminalOutcome, hne, hr, jsOrStr, hrne] using this
  · simpa [wait] using h.2.1

/-- Witness for C3: the sequence `[pending, error]` raises
`ProofGenerationFailed` with the reported reason after exactly 2 queries. -/
theorem wait_error_raises_witness :
    (wait DEFAULT_CONFIG "job-3" (fun k => okResponse (seqPendingError k))
      20 3000).result = .error (.generationFailed "prover overloaded") ∧
    (wait DEFAULT_CONFIG "job-3" (fun k => okResponse (seqPendingError k))
      20 3000).queries = 1 + 1 :=
  wait_error_raises DEFAULT_CONFIG "job-3" seqPendingError 20 3000 1
    "prover overloaded" (by decide) (by decide) (by decide) (by decide) (by decide)

/-- Counterexample to C3 as stated: the sequence `[pending, error]` whose
error status carries the present-but-empty `failureReason = some ""` does
not raise `ProofGenerationFailed` carrying that failureReason — the empty
string is falsy in `result.failureReason || "Unknown error"`, so the loop
raises "Unknown error" instead of `""`. -/
theorem wait_error_raises_counterexample :
    (seqPendingEmptyReason 1).status = JobState.error ∧
    (seqPendingEmptyReason 1).failureReason = some "" ∧
    (wait DEFAULT_CONFIG "job-4" (fun k => okResponse (seqPendingEmptyReason k))
      20 3000).result = .error (.generationFailed "Unknown error") ∧
    (wait DEFAULT_CONFIG "job-4" (fun k => okResponse (seqPendingEmptyReason k))
      20 3000).result ≠ .error (.generationFailed "") := by
  have hz : ∀ d : Nat, 1 - 1 + d = d := fun d => by omega
  have h := waitGo_reach DEFAULT_CONFIG "job-4" seqPendingEmptyReason 20 3000 1 1
    le_rfl (by omega)
    (fun d hd => by
      rw [hz]
      have hd0 : d = 0 := by omega
      subst hd0
      rfl)
    (by rw [hz]; rfl)
  rw [hz] at h
  have hres : (wait DEFAULT_CONFIG "job-4"
      (fun k => okResponse (seqPendingEmptyReason k)) 20 3000).result =
      terminalOutcome (seqPendingEmptyReason 1) := h.1
  refine ⟨rfl, rfl, ?_, ?_⟩
  · rw [hres]; rfl
  · rw [hres]
    intro hcontra
    rw [show terminalOutcome (seqPendingEmptyReason 1) =
        Except.error (PluginError.generationFailed "Unknown error") from rfl] at hcontra
    injection hcontra with h1
    injection h1 with h2
    exact absurd h2 (by decide)

/-! ### Log-resolution lemmas (C4, C5, C9) -/

/-- `List.findIdx?` with accumulator `s` finds `s + i` when position `i`
holds the first element satisfying `p`. -/
theorem findIdx?_acc_of_first {α : Type} (p : α → Bool) :
    ∀ (xs : List α) (i s : Nat),
      xs[i]?.map p = some true →
      (∀ j < i, xs[j]?.map p ≠ some true) →
      xs.findIdx? p s = some (s + i) := by
  intro xs
  induction xs with
  | nil => intro i s h _; simp at h
  | cons a xs ih =>
    intro i s h hfirst
    cases i with
    | zero =>
      simp only [List.getElem?_cons_zero, Option.map_some'] at h
      rw [List.findIdx?_cons]
      simp only [Option.some.injEq] at h
      simp [h]
    | succ i =>
      have ha : ¬ p a = true := by
        have h0 := hfirst 0 (Nat.succ_pos i)
        simpa using h0
      rw [List.findIdx?_cons, if_neg ha]
      have h' : xs[i]?.map p = some true := by simpa using h
      have hfirst' : ∀ j < i, xs[j]?.map p ≠ some true := by
        intro j hj
        have := hfirst (j + 1) (by omega)
        simpa using this
      rw [ih i (s + 1) h' hfirst']
      congr 1
      omega

/-- `List.findIdx?` finds exactly the first position satisfying `p`. -/
theorem findIdx?_eq_some_of_first {α : Type} (p : α → Bool) (xs : List α) (i : Nat)
    (h : xs[i]?.map p = some true)
    (hfirst : ∀ j < i, xs[j]?.map p ≠ some true) :
    xs.findIdx? p = some i := by
  have := findIdx?_acc_of_first p xs i 0 h hfirst
  simpa using this

/-- Position `i` holds the first log of the receipt whose leading topic
equals the topic hash of `sig` under `keccak` (lowest index wins). -/
abbrev firstTopicMatchAt (keccak : String → String) (receipt : TransactionReceipt)
    (sig : String) (i : Nat) : Prop :=
  receipt.logs[i]?.map (topicMatches (keccak sig)) = some true ∧
  ∀ j < i, receipt.logs[j]?.map (topicMatches (keccak sig)) ≠ some true

/-- A stand-in topic-hash function for concrete witnesses: maps the
Transfer signature to one topic and everything else elsewhere. -/
def sampleHash : String → String :=
  fun s => if s = "Transfer(address,address,uint256)" then "0xtransfer" else "0xother"

/-- A concrete receipt: the Transfer topic occurs first at position 1 and
again at position 2. -/
def sampleReceipt : TransactionReceipt :=
  ⟨12345, 7, "0xabc",
   [⟨["0xdeposit"]⟩, ⟨["0xtransfer", "0xfrom"]⟩, ⟨["0xtransfer"]⟩]⟩

/-- **C4 (amended).** For every receipt, every hash function and every
non-empty event signature: resolution by event signature (no numeric
logIndex) returns the position of the first log whose leading topic equals
the signature's topic hash — the lowest-index match when duplicates
exist — and fails with `EventNotFound` when no log matches. (The
non-emptiness proviso is forced: the source treats a falsy `""` signature
as absent.) -/
theorem resolve_by_signature (keccak : String → String)
    (receipt : TransactionReceipt) (sig : String) (hsig : sig ≠ "") :
    (∀ i : Nat, firstTopicMatchAt keccak receipt sig i →
      resolveLogIndex keccak receipt (some sig) none = .ok (i : ℚ)) ∧
    ((∀ log ∈ receipt.logs, topicMatches (keccak sig) log = false) →
      resolveLogIndex keccak receipt (some sig) none =
        .error (.eventNotFound sig)) := by
  constructor
  · intro i hmatch
    have hfind : receipt.logs.findIdx? (topicMatches (keccak sig)) = some i :=
      findIdx?_eq_some_of_first _ _ _ hmatch.1 hmatch.2
    have hne : ((i : ℤ) ≠ -1) := by omega
    unfold resolveLogIndex
    simp [jsTruthyStr, hsig, negativeProvided, jsFindIndex, hfind, hne]
  · intro hnone
    have hfind : receipt.logs.findIdx? (topicMatches (keccak sig)) = none :=
      List.findIdx?_eq_none_iff.mpr hnone
    unfold resolveLogIndex
    simp [jsTruthyStr, hsig, negativeProvided, jsFindIndex, hfind]

/-- Witness for C4: the Transfer signature resolves to position 1 of
`sampleReceipt` — the first of its two matches. -/
theorem resolve_by_signature_witness :
    resolveLogIndex sampleHash sampleReceipt
      (some "Transfer(address,address,uint256)") none = .ok ((1 : Nat) : ℚ) :=
  (resolve_by_signature sampleHash sampleReceipt
    "Transfer(address,address,uint256)" (by decide)).1 1 (by decide)

/-- Real keccak-256 of the empty string — the topic hash
`viemKeccak256(toBytes(""))` computes for the signature `""`. -/
def keccakOfEmptyString : String :=
  "0xc5d2460186f7233c927e7db2dcc703c0e500b653ca82273b7bfad8045d85a470"

/-- A hash function agreeing with keccak-256 on the empty signature. -/
def emptySigHash : String → String := fun _ => keccakOfEmptyString

/-- A receipt whose first log's leading topic is the topic hash of `""`. -/
def emptyTopicReceipt : TransactionReceipt :=
  ⟨1, 0, "0xdef", [⟨[keccakOfEmptyString]⟩]⟩

/-- Counterexample to C4 as stated: with event signature `""`, the first
log of `emptyTopicReceipt` carries exactly the signature's topic hash at
position 0, yet resolution returns neither position 0 nor `EventNotFound`:
the falsy empty string makes the source treat the signature as absent, so
it throws "eventSignature or logIndex is required" instead. -/
theorem resolve_by_signature_counterexample :
    firstTopicMatchAt emptySigHash emptyTopicReceipt "" 0 ∧
    resolveLogIndex emptySigHash emptyTopicReceipt (some "") none =
      .error .selectorRequired :=
  ⟨by decide, rfl⟩

/-- **C5 (amended).** When `logIndex` is provided it fails with
`InvalidArgument` if negative, and otherwise — integer or not — is used
unchanged as the resolved log coordinate; when neither `eventSignature` nor
`logIndex` is provided, resolution fails with `InvalidArgument`
("eventSignature or logIndex is required"). (The source never checks
integrality, so the claim's "non-integer" rejection is dropped.) -/
theorem resolve_logIndex_validation (keccak : String → String)
    (receipt : TransactionReceipt) (eventSignature : Option String) (x : ℚ) :
    (x < 0 → resolveLogIndex keccak receipt eventSignature (some x) =
      .error .negativeLogIndex) ∧
    (0 ≤ x → resolveLogIndex keccak receipt eventSignature (some x) = .ok x) ∧
    resolveLogIndex keccak receipt none none = .error .selectorRequired := by
  refine ⟨?_, ?_, rfl⟩
  · intro hx
    unfold resolveLogIndex
    simp [negativeProvided, hx]
  · intro hx
    unfold resolveLogIndex
    simp [negativeProvided, not_lt.mpr hx]

/-- Witness for C5: logIndex 2 is used unchanged, logIndex −1 is rejected. -/
theorem resolve_logIndex_validation_witness :
    resolveLogIndex sampleHash sampleReceipt none (some 2) = .ok 2 ∧
    resolveLogIndex sampleHash sampleReceipt none (some (-1)) =
      .error .negativeLogIndex :=
  ⟨(resolve_logIndex_validation sampleHash sampleReceipt none 2).2.1 (by norm_num),
   (resolve_logIndex_validation sampleHash sampleReceipt none (-1)).1 (by norm_num)⟩

/-- The non-integer rational 3/2 in normalized form. -/
def threeHalves : ℚ := Rat.mk' 3 2 (by decide) (by decide)

/-- Counterexample to C5 as stated: the non-integer logIndex `3/2` is not
rejected with `InvalidArgument` — resolution accepts it and returns it
unchanged. -/
theorem resolve_logIndex_validation_counterexample :
    threeHalves = 3 / 2 ∧
    threeHalves.den ≠ 1 ∧
    resolveLogIndex sampleHash sampleReceipt none (some threeHalves) =
      .ok threeHalves := by
  refine ⟨?_, by decide, rfl⟩
  have h1 : threeHalves = Rat.divInt 3 (2 : ℤ) := by
    rw [threeHalves, Rat.mk'_eq_divInt]; norm_num
  rw [h1, Rat.divInt_eq_div]; norm_num

/-- **C9 (amended).** When both an event signature and a numeric logIndex
are supplied, a non-negative logIndex is used unchanged as the resolved
coordinate; the signature is never hashed and the logs are never scanned
(the outcome is independent of the hash function and of the receipt), so
`EventNotFound` cannot be raised. (A negative logIndex is rejected with
`InvalidArgument` rather than used, which is what forces the amendment.) -/
theorem logIndex_precedence (keccak keccak2 : String → String)
    (receipt receipt2 : TransactionReceipt) (sig : String) (x : ℚ) :
    (0 ≤ x → resolveLogIndex keccak receipt (some sig) (some x) = .ok x) ∧
    (∀ s, resolveLogIndex keccak receipt (some sig) (some x) ≠
      .error (.eventNotFound s)) ∧
    resolveLogIndex keccak receipt (some sig) (some x) =
      resolveLogIndex keccak2 receipt2 (some sig) (some x) := by
  refine ⟨?_, ?_, ?_⟩
  · intro hx
    unfold resolveLogIndex
    simp [negativeProvided, not_lt.mpr hx]
  · intro s
    by_cases hx : x < 0 <;>
      (unfold resolveLogIndex; simp [negativeProvided, hx])
  · by_cases hx : x < 0 <;>
      (unfold resolveLogIndex; simp [negativeProvided, hx])

/-- Witness for C9: with both the Transfer signature and logIndex 0
supplied, position 0 is used even though the signature's first match in
`sampleReceipt` is at position 1. -/
theorem logIndex_precedence_witness :
    resolveLogIndex sampleHash sampleReceipt
      (some "Transfer(address,address,uint256)") (some 0) = .ok 0 :=
  (logIndex_precedence sampleHash sampleHash sampleReceipt sampleReceipt
    "Transfer(address,address,uint256)" 0).1 (by norm_num)

/-- Counterexample to C9 as stated: with an event signature and the numeric
logIndex −1 supplied, the provided logIndex is not used as the submitted
coordinate — resolution throws "logIndex must be non-negative" instead. -/
theorem logIndex_precedence_counterexample :
    resolveLogIndex sampleHash sampleReceipt
      (some "Transfer(address,address,uint256)") (some (-1)) ≠ .ok (-1) ∧
    resolveLogIndex sampleHash sampleReceipt
      (some "Transfer(address,address,uint256)") (some (-1)) =
      .error .negativeLogIndex := by
  refine ⟨?_, rfl⟩
  intro h
  rw [show resolveLogIndex sampleHash sampleReceipt
      (some "Transfer(address,address,uint256)") (some (-1)) =
      Except.error PluginError.negativeLogIndex from rfl] at h
  exact Except.noConfusion h

/-! ### C6: block-number normalization -/

/-- **C6.** For every proof request, `requestProof` normalizes a source
block number supplied as a bigint into the numeric request field of the
transmitted JSON-RPC params array by converting it with `Number` — exact on
the safe-integer range `|n| ≤ 2^53`; in particular a bigint equal to 12345
becomes the numeric value 12345 at position 1 of the params. -/
theorem requestProof_normalizes_bigint (cfg : PolymerConfig)
    (srcChainId txIndex localLogIndex : ℚ) (n : ℤ)
    (resp : FetchResponse String) (hn : n.natAbs ≤ 2 ^ 53) :
    (requestProof cfg srcChainId (.bigint n) txIndex localLogIndex resp).request =
      ⟨"log_requestProof",
       [.num srcChainId, .num (n : ℚ), .num txIndex, .num localLogIndex]⟩ := by
  have hn' : n.natAbs ≤ 9007199254740992 := by
    calc n.natAbs ≤ 2 ^ 53 := hn
      _ = 9007199254740992 := by norm_num
  obtain ⟨ok, st, err, res⟩ := resp
  cases ok <;> cases err <;>
    simp [requestProof, coerceBlockNumber, numberOfBigint, hn']

/-- Witness for C6: the bigint 12345 is transmitted as the number 12345. -/
theorem requestProof_normalizes_bigint_witness :
    (requestProof DEFAULT_CONFIG 10 (.bigint 12345) 7 0
      ⟨true, 200, none, "job-1"⟩).request =
      ⟨"log_requestProof",
       [.num 10, .num ((12345 : ℤ) : ℚ), .num 7, .num 0]⟩ :=
  requestProof_normalizes_bigint DEFAULT_CONFIG 10 7 0 12345
    ⟨true, 200, none, "job-1"⟩ (by decide)

/-! ### C7: empty job id short-circuits -/

/-- **C7.** For the empty job identifier, both the public status query
`polymer.queryProofStatus` and the public poll operation `polymer.wait`
fail with "Job ID is required" before performing any network round trip:
zero round trips and zero status queries, whatever the remote would have
answered. -/
theorem empty_jobId_fails_before_network (cfg : PolymerConfig)
    (resp : FetchResponse ProofJobStatus)
    (responses : Nat → FetchResponse ProofJobStatus)
    (maxAttempts interval : Option Nat) :
    (polymerQueryProofStatus cfg "" resp).result = .error .jobIdRequired ∧
    (polymerQueryProofStatus cfg "" resp).roundTrips = 0 ∧
    (polymerWait cfg "" responses maxAttempts interval).result =
      .error .jobIdRequired ∧
    (polymerWait cfg "" responses maxAttempts interval).queries = 0 :=
  ⟨rfl, rfl, rfl, rfl⟩

/-! ### C10: zero arguments fall back through logical-or -/

/-- **C10.** `polymer.wait` called with an explicit `maxAttempts` of 0 or an
explicit `interval` of 0 behaves exactly as if the arguments were omitted,
because the fallback is JS logical-or, under which an explicit zero is
falsy and can never be selected; with a user configuration that does not
override them, the substituted values are the documented defaults
`maxAttempts = 20` and `interval = 3000`. -/
theorem wait_zero_args_fall_back (cfg : PolymerConfig)
    (userConfig : PolymerUserConfig) (jobId : String)
    (responses : Nat → FetchResponse ProofJobStatus)
    (hma : userConfig.maxAttempts = none) (hiv : userConfig.interval = none) :
    polymerWait cfg jobId responses (some 0) (some 0) =
      polymerWait cfg jobId responses none none ∧
    jsOrNat (some 0) cfg.maxAttempts = cfg.maxAttempts ∧
    jsOrNat (some 0) cfg.interval = cfg.interval ∧
    (mergeConfig userConfig).maxAttempts = 20 ∧
    (mergeConfig userConfig).interval = 3000 ∧
    polymerWait (mergeConfig userConfig) jobId responses (some 0) (some 0) =
      polymerWait (mergeConfig userConfig) jobId responses (some 20) (some 3000) := by
  refine ⟨rfl, rfl, rfl, ?_, ?_, ?_⟩
  · simp [mergeConfig, hma, DEFAULT_CONFIG]
  · simp [mergeConfig, hiv, DEFAULT_CONFIG]
  · unfold polymerWait
    simp [jsOrNat, mergeConfig, hma, hiv, DEFAULT_CONFIG]

/-- Witness for C10 at a concrete configuration and job id. -/
theorem wait_zero_args_fall_back_witness :
    polymerWait DEFAULT_CONFIG "job-1" (fun k => okResponse (seqAllPending k))
      (some 0) (some 0) =
      polymerWait DEFAULT_CONFIG "job-1" (fun k => okResponse (seqAllPending k))
        none none ∧
    jsOrNat (some 0) DEFAULT_CONFIG.maxAttempts = DEFAULT_CONFIG.maxAttempts ∧
    jsOrNat (some 0) DEFAULT_CONFIG.interval = DEFAULT_CONFIG.interval ∧
    (mergeConfig ⟨none, "an-api-key", none, none, none, none⟩).maxAttempts = 20 ∧
    (mergeConfig ⟨none, "an-api-key", none, none, none, none⟩).interval = 3000 ∧
    polymerWait (mergeConfig ⟨none, "an-api-key", none, none, none, none⟩)
      "job-1" (fun k => okResponse (seqAllPending k)) (some 0) (some 0) =
      polymerWait (mergeConfig ⟨none, "an-api-key", none, none, none, none⟩)
        "job-1" (fun k => okResponse (seqAllPending k)) (some 20) (some 3000) :=
  wait_zero_args_fall_back DEFAULT_CONFIG ⟨none, "an-api-key", none, none, none, none⟩
    "job-1" (fun k => okResponse (seqAllPending k)) rfl rfl

/-! ### C8: the debug flag is side-channel only -/

/-- The outcome of a status query depends only on the response — the
configuration and job id feed only the logs. -/
theorem queryProofStatus_result_congr (c1 c2 : PolymerConfig) (j1 j2 : String)
    (resp : FetchResponse ProofJobStatus) :
    (queryProofStatus c1 j1 resp).result = (queryProofStatus c2 j2 resp).result := by
  obtain ⟨ok, st, err, res⟩ := resp
  cases ok <;> cases err <;> rfl

/-- The outcome of a proof request depends only on its arguments and the
response, not on the configuration record. -/
theorem requestProof_result_congr (c1 c2 : PolymerConfig)
    (srcChainId : ℚ) (srcBlockNumber : JSNumeric) (txIndex localLogIndex : ℚ)
    (resp : FetchResponse String) :
    (requestProof c1 srcChainId srcBlockNumber txIndex localLogIndex resp).result =
      (requestProof c2 srcChainId srcBlockNumber txIndex localLogIndex resp).result := by
  obtain ⟨ok, st, err, res⟩ := resp
  cases ok <;> cases err <;> rfl

/-- The transmitted request body does not depend on the configuration
record or on the response. -/
theorem requestProof_request_congr (c1 c2 : PolymerConfig)
    (srcChainId : ℚ) (srcBlockNumber : JSNumeric) (txIndex localLogIndex : ℚ)
    (r1 r2 : FetchResponse String) :
    (requestProof c1 srcChainId srcBlockNumber txIndex localLogIndex r1).request =
      (requestProof c2 srcChainId srcBlockNumber txIndex localLogIndex r2).request := by
  obtain ⟨ok1, st1, err1, res1⟩ := r1
  obtain ⟨ok2, st2, err2, res2⟩ := r2
  cases ok1 <;> cases err1 <;> cases ok2 <;> cases err2 <;> rfl

/-- The poll loop's outcome, query count and delay count do not depend on
the configuration record or the job id — these feed only the logs. -/
theorem waitGo_fields_congr (c1 c2 : PolymerConfig) (j1 j2 : String)
    (responses : Nat → FetchResponse ProofJobStatus) (maxAttempts interval : Nat) :
    ∀ n attempt, maxAttempts + 1 - attempt = n →
      (waitGo c1 j1 responses maxAttempts interval attempt).result =
        (waitGo c2 j2 responses maxAttempts interval attempt).result ∧
      (waitGo c1 j1 responses maxAttempts interval attempt).queries =
        (waitGo c2 j2 responses maxAttempts interval attempt).queries ∧
      (waitGo c1 j1 responses maxAttempts interval attempt).delays =
        (waitGo c2 j2 responses maxAttempts interval attempt).delays := by
  intro n
  induction n with
  | zero =>
    intro attempt hn
    have h : maxAttempts < attempt := by omega
    rw [waitGo_past_max c1 j1 responses maxAttempts interval attempt h,
        waitGo_past_max c2 j2 responses maxAttempts interval attempt h]
    exact ⟨rfl, rfl, rfl⟩
  | succ m ih =>
    intro attempt hn
    by_cases h : maxAttempts < attempt
    · rw [waitGo_past_max c1 j1 responses maxAttempts interval attempt h,
          waitGo_past_max c2 j2 responses maxAttempts interval attempt h]
      exact ⟨rfl, rfl, rfl⟩
    · have h1 : attempt ≤ maxAttempts := by omega
      have hq := queryProofStatus_result_congr c1 c2 j1 j2 (responses (attempt - 1))
      rcases hq1 : (queryProofStatus c1 j1 (responses (attempt - 1))).result with e | s
      · have hq2 : (queryProofStatus c2 j2 (responses (attempt - 1))).result =
            .error e := by rw [← hq, hq1]
        have s1 := waitGo_step_queryError c1 j1 responses maxAttempts interval
          attempt e h1 hq1
        have s2 := waitGo_step_queryError c2 j2 responses maxAttempts interval
          attempt e h1 hq2
        exact ⟨s1.1.trans s2.1.symm, s1.2.1.trans s2.2.1.symm,
          s1.2.2.trans s2.2.2.symm⟩
      · have hq2 : (queryProofStatus c2 j2 (responses (attempt - 1))).result =
            .ok s := by rw [← hq, hq1]
        have hrec := ih (attempt + 1) (by omega)
        rcases hst : s.status with _ | _ | _ | _
        · have hnt : (s.status).isTerminal = false := by rw [hst]; rfl
          have s1 := waitGo_step_continue c1 j1 responses maxAttempts interval
            attempt s h1 hq1 hnt
          have s2 := waitGo_step_continue c2 j2 responses maxAttempts interval
            attempt s h1 hq2 hnt
          refine ⟨?_, ?_, ?_⟩
          · rw [s1.1, s2.1, hrec.1]
          · rw [s1.2.1, s2.2.1, hrec.2.1]
          · rw [s1.2.2, s2.2.2, hrec.2.2]
        · have hnt : (s.status).isTerminal = false := by rw [hst]; rfl
          have s1 := waitGo_step_continue c1 j1 responses maxAttempts interval
            attempt s h1 hq1 hnt
          have s2 := waitGo_step_continue c2 j2 responses maxAttempts interval
            attempt s h1 hq2 hnt
          refine ⟨?_, ?_, ?_⟩
          · rw [s1.1, s2.1, hrec.1]
          · rw [s1.2.1, s2.2.1, hrec.2.1]
          · rw [s1.2.2, s2.2.2, hrec.2.2]
        · have s1 := waitGo_step_complete c1 j1 responses maxAttempts interval
            attempt s h1 hq1 hst
          have s2 := waitGo_step_complete c2 j2 responses maxAttempts interval
            attempt s h1 hq2 hst
          exact ⟨s1.1.trans s2.1.symm, s1.2.1.trans s2.2.1.symm,
            s1.2.2.trans s2.2.2.symm⟩
        · have s1 := waitGo_step_jobError c1 j1 responses maxAttempts interval
            attempt s h1 hq1 hst
          have s2 := waitGo_step_jobError c2 j2 responses maxAttempts interval
            attempt s h1 hq2 hst
          exact ⟨s1.1.trans s2.1.symm, s1.2.1.trans s2.2.1.symm,
            s1.2.2.trans s2.2.2.symm⟩

/-- `wait`-level version of `waitGo_fields_congr`. -/
theorem wait_fields_congr (c1 c2 : PolymerConfig) (j1 j2 : String)
    (responses : Nat → FetchResponse ProofJobStatus) (maxAttempts interval : Nat) :
    (wait c1 j1 responses maxAttempts interval).result =
      (wait c2 j2 responses maxAttempts interval).result ∧
    (wait c1 j1 responses maxAttempts interval).queries =
      (wait c2 j2 responses maxAttempts interval).queries ∧
    (wait c1 j1 responses maxAttempts interval).delays =
      (wait c2 j2 responses maxAttempts interval).delays := by
  have h := waitGo_fields_congr c1 c2 j1 j2 responses maxAttempts interval
    (maxAttempts + 1 - 1) 1 rfl
  simpa [wait] using h

/-- `polymer.wait`'s observable fields agree for configurations that agree
on `maxAttempts` and `interval` (e.g. differing only in `debug`). -/
theorem polymerWait_fields_congr (c1 c2 : PolymerConfig) (jobId : String)
    (responses : Nat → FetchResponse ProofJobStatus)
    (maxAttempts interval : Option Nat)
    (hm : c1.maxAttempts = c2.maxAttempts) (hi : c1.interval = c2.interval) :
    (polymerWait c1 jobId responses maxAttempts interval).result =
      (polymerWait c2 jobId responses maxAttempts interval).result ∧
    (polymerWait c1 jobId responses maxAttempts interval).queries =
      (polymerWait c2 jobId responses maxAttempts interval).queries ∧
    (polymerWait c1 jobId responses maxAttempts interval).delays =
      (polymerWait c2 jobId responses maxAttempts interval).delays := by
  unfold polymerWait
  by_cases hj : jobId = ""
  · simp [hj]
  · simp only [hj, if_neg, ite_false]
    rw [hm, hi]
    exact wait_fields_congr c1 c2 jobId jobId responses
      (jsOrNat maxAttempts c2.maxAttempts) (jsOrNat interval c2.interval)

/-- `polymer.queryProofStatus`'s outcome and round-trip count depend only
on the job id and the response. -/
theorem polymerQueryProofStatus_congr (c1 c2 : PolymerConfig) (jobId : String)
    (resp : FetchResponse ProofJobStatus) :
    (polymerQueryProofStatus c1 jobId resp).result =
      (polymerQueryProofStatus c2 jobId resp).result ∧
    (polymerQueryProofStatus c1 jobId resp).roundTrips =
      (polymerQueryProofStatus c2 jobId resp).roundTrips := by
  unfold polymerQueryProofStatus
  by_cases hj : jobId = ""
  · simp [hj]
  · simp only [hj, if_neg, ite_false]
    exact ⟨queryProofStatus_result_congr c1 c2 jobId jobId resp, trivial⟩

/-- `polymerProof`'s outcome agrees for configurations that agree on
`maxAttempts` and `interval` (e.g. differing only in `debug`). -/
theorem polymerProof_result_congr (c1 c2 : PolymerConfig)
    (keccak : String → String) (chainId : Option ℚ)
    (options : PolymerProofOptions) (requestResponse : FetchResponse String)
    (pollResponses : Nat → FetchResponse ProofJobStatus)
    (hm : c1.maxAttempts = c2.maxAttempts) (hi : c1.interval = c2.interval) :
    (polymerProof c1 keccak chainId options requestResponse pollResponses).result =
      (polymerProof c2 keccak chainId options requestResponse pollResponses).result := by
  obtain ⟨rcpt, sig, li, ma, iv, rj⟩ := options
  unfold polymerProof
  cases rcpt with
  | none => rfl
  | some receipt =>
    cases chainId with
    | none => rfl
    | some cid =>
      by_cases hc : cid = 0
      · simp [hc]
      · simp only [if_neg hc]
        cases hres : resolveLogIndex keccak receipt sig li with
        | error e => rfl
        | ok localLogIndex =>
          have hreq := requestProof_result_congr c1 c2 cid (.bigint receipt.blockNumber)
            receipt.transactionIndex localLogIndex requestResponse
          rcases hr1 : (requestProof c1 cid (.bigint receipt.blockNumber)
              receipt.transactionIndex localLogIndex requestResponse).result with e | jobId
          · have hr2 : (requestProof c2 cid (.bigint receipt.blockNumber)
                receipt.transactionIndex localLogIndex requestResponse).result =
                .error e := by rw [← hreq, hr1]
            simp only [hr1, hr2]
          · have hr2 : (requestProof c2 cid (.bigint receipt.blockNumber)
                receipt.transactionIndex localLogIndex requestResponse).result =
                .ok jobId := by rw [← hreq, hr1]
            simp only [hr1, hr2]
            cases rj with
            | true => simp
            | false =>
              simp only [Bool.false_eq_true, if_false]
              rw [hm, hi,
                (wait_fields_congr c1 c2 jobId jobId pollResponses
                  (ma.getD c2.maxAttempts) (iv.getD c2.interval)).1]

/-- **C8.** For every operation (`polymerProof`, `polymer.requestProof`,
`polymer.queryProofStatus`, `polymer.wait`) and every pair of
configurations differing only in the `debug` flag, identical inputs and
identical remote responses produce identical outcomes — same returned
value or same raised error, same transmitted request, same number of
round trips and delays. Logging is side-channel only. -/
theorem debug_flag_noninterference (cfg : PolymerConfig) (d1 d2 : Bool)
    (keccak : String → String) (chainId : Option ℚ)
    (options : PolymerProofOptions) (requestResponse : FetchResponse String)
    (pollResponses : Nat → FetchResponse ProofJobStatus)
    (params : ProofRequestParams) (reqResp : FetchResponse String)
    (jobId : String) (statusResp : FetchResponse ProofJobStatus)
    (waitJobId : String) (responses : Nat → FetchResponse ProofJobStatus)
    (maxAttempts interval : Option Nat) :
    (polymerProof {cfg with debug := d1} keccak chainId options
        requestResponse pollResponses).result =
      (polymerProof {cfg with debug := d2} keccak chainId options
        requestResponse pollResponses).result ∧
    (polymerRequestProof {cfg with debug := d1} params reqResp).result =
      (polymerRequestProof {cfg with debug := d2} params reqResp).result ∧
    (polymerRequestProof {cfg with debug := d1} params reqResp).request =
      (polymerRequestProof {cfg with debug := d2} params reqResp).request ∧
    (polymerQueryProofStatus {cfg with debug := d1} jobId statusResp).result =
      (polymerQueryProofStatus {cfg with debug := d2} jobId statusResp).result ∧
    (polymerQueryProofStatus {cfg with debug := d1} jobId statusResp).roundTrips =
      (polymerQueryProofStatus {cfg with debug := d2} jobId statusResp).roundTrips ∧
    (polymerWait {cfg with debug := d1} waitJobId responses maxAttempts interval).result =
      (polymerWait {cfg with debug := d2} waitJobId responses maxAttempts interval).result ∧
    (polymerWait {cfg with debug := d1} waitJobId responses maxAttempts interval).queries =
      (polymerWait {cfg with debug := d2} waitJobId responses maxAttempts interval).queries ∧
    (polymerWait {cfg with debug := d1} waitJobId responses maxAttempts interval).delays =
      (polymerWait {cfg with debug := d2} waitJobId responses maxAttempts interval).delays := by
  have hwait := polymerWait_fields_congr {cfg with debug := d1} {cfg with debug := d2}
    waitJobId responses maxAttempts interval rfl rfl
  have hquery := polymerQueryProofStatus_congr {cfg with debug := d1}
    {cfg with debug := d2} jobId statusResp
  exact ⟨polymerProof_result_congr {cfg with debug := d1} {cfg with debug := d2}
      keccak chainId options requestResponse pollResponses rfl rfl,
    requestProof_result_congr {cfg with debug := d1} {cfg with debug := d2}
      params.srcChainId params.srcBlockNumber params.txIndex params.logIndex reqResp,
    requestProof_request_congr {cfg with debug := d1} {cfg with debug := d2}
      params.srcChainId params.srcBlockNumber params.txIndex params.logIndex
      reqResp reqResp,
    hquery.1, hquery.2, hwait.1, hwait.2.1, hwait.2.2⟩

end PolymerViem
